import Mathlib

/-!
Verification of the Cart & Checkout Consistency Core of the store-nextjs
repository.  The TypeScript source is shallowly embedded: JavaScript
numbers are idealised as exact rationals, fallible code returns Except or
a structured result value, and the relational store is explicit state.
Source files embedded here: src/lib/actions/cart.actions.ts, the order
action file (createOrder), the order details page (getOrCreatePaymentIntent),
src/auth.ts (jwt callback cart merge), and
src/app/api/webhooks/stripe/route.ts (pricePaid formatting).
-/

namespace Store

/-! ## Money arithmetic -/

/-- Modelled from the spec: src/lib/utils.ts (the file defining round2) is
not present in the source tree; the spec states that round2 rounds half-up
to 2 decimal places using integer-cent arithmetic. -/
def round2 (x : ℚ) : ℚ := (Int.floor (x * 100 + 1 / 2) : ℚ) / 100

/-- JavaScript Math.round: round to nearest integer, half towards plus
infinity. -/
def jsRound (x : ℚ) : ℤ := Int.floor (x + 1 / 2)

/-- The whole number of cents of a nonnegative rational, rounding half-up
exactly as JavaScript toFixed(2) does on a nonnegative number. -/
def centsOf (x : ℚ) : ℕ := (Int.floor (x * 100 + 1 / 2)).toNat

/-- Base-10 characters of a positive natural number, most significant
first; fuel-structural so that the kernel can evaluate it. -/
def natCharsAux : ℕ → ℕ → List Char
  | 0, _ => []
  | fuel + 1, n =>
    if n = 0 then [] else natCharsAux fuel (n / 10) ++ [Nat.digitChar (n % 10)]

/-- Base-10 characters of a natural number, most significant first. -/
def natChars (n : ℕ) : List Char :=
  if n = 0 then ['0'] else natCharsAux n n

/-- Decimal rendering of a natural number (used for JavaScript
Number.toFixed() with zero fractional digits). -/
def natToString (n : ℕ) : String := String.mk (natChars n)

/-- JavaScript Number.toFixed(2) of a nonnegative number: digits, a dot,
and exactly two fractional digits. -/
def toFixed2 (x : ℚ) : String :=
  let c := centsOf x
  String.mk (natChars (c / 100) ++ '.' :: [Nat.digitChar (c % 100 / 10), Nat.digitChar (c % 10)])

/-- Checks the tail of a money string: zero or more digits followed by a
dot and exactly two digits. -/
def moneyTail : List Char → Bool
  | [] => false
  | c :: cs =>
    if c = '.' then
      match cs with
      | [a, b] => a.isDigit && b.isDigit
      | _ => false
    else c.isDigit && moneyTail cs

/-- Decides membership in the regular expression from the spec:
one or more digits, a dot, exactly two digits. -/
def moneyFormat (s : String) : Bool :=
  match s.data with
  | [] => false
  | c :: cs => c.isDigit && moneyTail cs

/-! ## Cart data model (src/lib/validators.ts, prisma schema) -/

/-- A cart line item; price models Number(item.price), the numeric value
of the stored two-decimal price string. -/
structure CartItem where
  productId : String
  name : String
  slug : String
  qty : ℕ
  image : String
  price : ℚ
deriving DecidableEq

/-- The four derived monetary totals as the strings the actions write. -/
structure Totals where
  itemsPrice : String
  shippingPrice : String
  taxPrice : String
  totalPrice : String
deriving DecidableEq

/-- A cart row.  The relational store is modelled as preserving the total
strings exactly as written by the actions. -/
structure Cart where
  id : String
  userId : Option String
  sessionCartId : String
  items : List CartItem
  itemsPrice : String
  shippingPrice : String
  taxPrice : String
  totalPrice : String
deriving DecidableEq

/-- The four stored totals of a cart row. -/
def storedTotals (c : Cart) : Totals :=
  ⟨c.itemsPrice, c.shippingPrice, c.taxPrice, c.totalPrice⟩

/-- Replace the items and the four totals of a cart row in one write. -/
def withItemsTotals (c : Cart) (items : List CartItem) (t : Totals) : Cart :=
  { c with items := items, itemsPrice := t.itemsPrice,
           shippingPrice := t.shippingPrice, taxPrice := t.taxPrice,
           totalPrice := t.totalPrice }

/-- The slice of a product row the cart actions read. -/
structure Product where
  id : String
  slug : String
  name : String
  stock : ℕ
deriving DecidableEq

/-- The structured result the cart actions return to their caller. -/
structure ActionResult where
  success : Bool
  message : String
deriving DecidableEq

/-! ## Cart actions (src/lib/actions/cart.actions.ts) -/

/-- calcPrice from src/lib/actions/cart.actions.ts lines 13 to 27. -/
def calcPrice (items : List CartItem) : Totals :=
  let itemsPrice := round2 (items.foldl (fun acc it => acc + it.price * (it.qty : ℚ)) 0)
  let shippingPrice := round2 (if itemsPrice > 100 then 0 else 10)
  let taxPrice := round2 (21 / 100 * itemsPrice)
  let totalPrice := round2 (itemsPrice + shippingPrice + taxPrice)
  ⟨toFixed2 itemsPrice, toFixed2 shippingPrice, toFixed2 taxPrice, toFixed2 totalPrice⟩

/-- The findFirst the actions perform: by userId when authenticated, else
by sessionCartId. -/
def findCart (userId? : Option String) (sessionCartId : String)
    (carts : List Cart) : Option Cart :=
  match userId? with
  | some uid => carts.find? (fun c => c.userId == some uid)
  | none => carts.find? (fun c => c.sessionCartId == sessionCartId)

/-- getMyCart from src/lib/actions/cart.actions.ts lines 114 to 139:
absent cookie yields absent, otherwise the findFirst result (the decimal
to string conversion is modelled as returning the stored strings). -/
def getMyCart (sessionCartId? : Option String) (userId? : Option String)
    (carts : List Cart) : Option Cart :=
  match sessionCartId? with
  | none => none
  | some sid => findCart userId? sid carts

/-- Set the qty of the first item with the given productId (the source
mutates the first match that Array.find returns). -/
def setQtyFirst (items : List CartItem) (pid : String) (q : ℕ) : List CartItem :=
  match items with
  | [] => []
  | x :: xs =>
    if x.productId = pid then { x with qty := q } :: xs
    else x :: setQtyFirst xs pid q

/-- The prisma.cart.update write: replace items and all four totals of the
cart with the given id in one write. -/
def updateCartWrite (carts : List Cart) (id : String) (items : List CartItem)
    (t : Totals) : List Cart :=
  carts.map (fun c => if c.id = id then withItemsTotals c items t else c)

/-- addItemToCart from src/lib/actions/cart.actions.ts lines 28 to 112.
Thrown errors are caught by the surrounding try into a success false
result, leaving the store untouched.  newCartId stands for the id the
store generates on create. -/
def addItemToCart (sessionCartId? : Option String) (userId? : Option String)
    (products : List Product) (newCartId : String) (item : CartItem)
    (carts : List Cart) : ActionResult × List Cart :=
  match sessionCartId? with
  | none => (⟨false, "Cart Session not found"⟩, carts)
  | some sid =>
    match products.find? (fun p => p.id == item.productId) with
    | none => (⟨false, "Product not found"⟩, carts)
    | some product =>
      match getMyCart (some sid) userId? carts with
      | none =>
        let t := calcPrice [item]
        let newCart : Cart :=
          ⟨newCartId, userId?, sid, [item],
           t.itemsPrice, t.shippingPrice, t.taxPrice, t.totalPrice⟩
        (⟨true, product.name ++ " added to cart"⟩, carts ++ [newCart])
      | some cart =>
        match cart.items.find? (fun x => x.productId == item.productId) with
        | some existItem =>
          if product.stock < existItem.qty + 1 then
            (⟨false, "Not enough stock"⟩, carts)
          else
            let newItems := setQtyFirst cart.items item.productId (existItem.qty + 1)
            (⟨true, product.name ++ " updated in cart"⟩,
             updateCartWrite carts cart.id newItems (calcPrice newItems))
        | none =>
          if product.stock < 1 then
            (⟨false, "Not enough stock"⟩, carts)
          else
            let newItems := cart.items ++ [item]
            (⟨true, product.name ++ " added to cart"⟩,
             updateCartWrite carts cart.id newItems (calcPrice newItems))

/-- removeItemfromCart from src/lib/actions/cart.actions.ts lines 141
to 193. -/
def removeItemfromCart (sessionCartId? : Option String) (userId? : Option String)
    (products : List Product) (productId : String)
    (carts : List Cart) : ActionResult × List Cart :=
  match sessionCartId? with
  | none => (⟨false, "Cart Session not found"⟩, carts)
  | some sid =>
    match products.find? (fun p => p.id == productId) with
    | none => (⟨false, "Product not found"⟩, carts)
    | some product =>
      match getMyCart (some sid) userId? carts with
      | none => (⟨false, "Cart not found"⟩, carts)
      | some cart =>
        match cart.items.find? (fun x => x.productId == productId) with
        | none => (⟨false, "Item not found"⟩, carts)
        | some exist =>
          let newItems :=
            if exist.qty = 1 then
              cart.items.filter (fun x => x.productId != exist.productId)
            else setQtyFirst cart.items exist.productId (exist.qty - 1)
          (⟨true, product.name ++ " was removed from cart"⟩,
           updateCartWrite carts cart.id newItems (calcPrice newItems))

/-! ## Order creation pipeline (createOrder in the order actions file) -/

/-- An order row; the field name shippingAdress keeps the source spelling. -/
structure OrderRow where
  id : String
  userId : String
  shippingAdress : String
  paymentMethod : String
  itemsPrice : String
  shippingPrice : String
  taxPrice : String
  totalPrice : String
deriving DecidableEq

/-- An order item row snapshotting a cart line. -/
structure OrderItemRow where
  orderId : String
  productId : String
  name : String
  slug : String
  image : String
  price : ℚ
  qty : ℕ
deriving DecidableEq

/-- The slice of the relational store the order pipeline touches. -/
structure DB where
  carts : List Cart
  orders : List OrderRow
  orderItems : List OrderItemRow
deriving DecidableEq

/-- The numeric zero written into each of the four decimal columns when a
cart is cleared. -/
def zeroTotals : Totals := ⟨"0", "0", "0", "0"⟩

/-- One primitive store write inside the createOrder transaction. -/
inductive TxWrite where
  | orderCreate (o : OrderRow)
  | orderItemCreate (it : OrderItemRow)
  | cartClear (cartId : String)
deriving DecidableEq

/-- Effect of one primitive write on the store. -/
def applyWrite (db : DB) : TxWrite → DB
  | .orderCreate o => { db with orders := db.orders ++ [o] }
  | .orderItemCreate it => { db with orderItems := db.orderItems ++ [it] }
  | .cartClear cid => { db with carts := updateCartWrite db.carts cid [] zeroTotals }

/-- Effect of a write list on the store. -/
def applyWrites (db : DB) (ws : List TxWrite) : DB := ws.foldl applyWrite db

/-- The all-or-nothing transaction of the relational store (spec section 6
collaborator contract): failAt? injects a failure while executing the
write with that index; the store rolls back, so the caller sees none. -/
def runTx (db : DB) (ws : List TxWrite) (failAt? : Option ℕ) : Option DB :=
  match failAt? with
  | some k => if k < ws.length then none else some (applyWrites db ws)
  | none => some (applyWrites db ws)

/-- The order item row snapshotting one cart line (price, name, image
taken from the cart line, not re-read from the product). -/
def snapshotItem (orderId : String) (it : CartItem) : OrderItemRow :=
  ⟨orderId, it.productId, it.name, it.slug, it.image, it.price, it.qty⟩

/-- The write list of the createOrder transaction: create the order row,
one order item per cart line, then clear the cart. -/
def orderTxWrites (cart : Cart) (order : OrderRow) : List TxWrite :=
  TxWrite.orderCreate order ::
    cart.items.map (fun it => TxWrite.orderItemCreate (snapshotItem order.id it))
    ++ [TxWrite.cartClear cart.id]

/-- The slice of a user row createOrder reads. -/
structure User where
  id : String
  address : Option String
  paymentMethod : Option String
deriving DecidableEq

/-- The structured result createOrder returns. -/
structure OrderActionResult where
  success : Bool
  message : String
  redirectTo : Option String
deriving DecidableEq

/-- getUserById: findFirst by id (the source throws when absent). -/
def getUserById (users : List User) (uid : String) : Option User :=
  users.find? (fun u => u.id == uid)

/-- The order row createOrder builds, snapshotting address and payment
method from the user and the four totals from the cart. -/
def mkOrderRow (newOrderId : String) (user : User) (address pm : String)
    (cart : Cart) : OrderRow :=
  ⟨newOrderId, user.id, address, pm,
   cart.itemsPrice, cart.shippingPrice, cart.taxPrice, cart.totalPrice⟩

/-- createOrder from the order actions file lines 13 to 98.  Throws are
caught into a success false result without redirect; the three checkout
preconditions short-circuit with a redirect hint; newOrderId stands for
the id the store generates for the order row. -/
def createOrder (sessionCartId? : Option String) (userId? : Option String)
    (users : List User) (newOrderId : String) (failAt? : Option ℕ)
    (db : DB) : OrderActionResult × DB :=
  match userId? with
  | none => (⟨false, "User is not authenticated", none⟩, db)
  | some uid =>
    let cart? := getMyCart sessionCartId? (some uid) db.carts
    match getUserById users uid with
    | none => (⟨false, "User not found", none⟩, db)
    | some user =>
      match cart? with
      | none => (⟨false, "Your cart is empty", some "/cart"⟩, db)
      | some cart =>
        if cart.items.isEmpty then
          (⟨false, "Your cart is empty", some "/cart"⟩, db)
        else
          match user.address with
          | none => (⟨false, "No Shipping Address Found", some "/shipping-address"⟩, db)
          | some address =>
            match user.paymentMethod with
            | none => (⟨false, "No Payment method selected", some "/payment-method"⟩, db)
            | some pm =>
              let order := mkOrderRow newOrderId user address pm cart
              match runTx db (orderTxWrites cart order) failAt? with
              | none => (⟨false, "Transaction failed", none⟩, db)
              | some dbSucc =>
                (⟨true, "Order created", some ("/order/" ++ newOrderId)⟩, dbSucc)

/-- Lookup of an order row by id. -/
def findOrder (db : DB) (id : String) : Option OrderRow :=
  db.orders.find? (fun o => o.id == id)

/-- The order item rows belonging to an order. -/
def itemsOfOrder (db : DB) (id : String) : List OrderItemRow :=
  db.orderItems.filter (fun it => it.orderId == id)

/-- Lookup of a cart row by id. -/
def findCartById (carts : List Cart) (id : String) : Option Cart :=
  carts.find? (fun c => c.id == id)

/-! ## Payment intent reconciliation (order details page) -/

/-- The paymentResult blob stored on an order. -/
structure PaymentResult where
  id : String
  status : String
  emailAddress : String
  pricePaid : String
deriving DecidableEq

/-- The slice of the order row getOrCreatePaymentIntent selects. -/
structure OrderPaySlice where
  paymentResult : Option PaymentResult
deriving DecidableEq

/-- A provider side payment intent. -/
structure PaymentIntent where
  id : String
  clientSecret : String
  amount : ℤ
  currency : String
  metadataOrderId : String
  status : String
deriving DecidableEq

/-- The non-terminal awaiting action statuses the source accepts. -/
def awaitingStates : List String :=
  ["requires_payment_method", "requires_confirmation", "requires_action"]

/-- The stored provider intent reference, accepted only when the id is a
string starting with pi underscore (source lines 44 to 48). -/
def storedPiId? (pr? : Option PaymentResult) : Option String :=
  match pr? with
  | none => none
  | some pr =>
    match pr.id.data with
    | 'p' :: 'i' :: '_' :: _ => some pr.id
    | _ => none

/-- The source validation of a retrieved intent against the order (lines
55 to 58): amount in minor units, currency usd, orderId metadata, and an
awaiting status. -/
def validForOrder (p : PaymentIntent) (orderId : String) (amount : ℤ) : Bool :=
  p.amount == amount && p.currency == "usd" &&
    p.metadataOrderId == orderId && awaitingStates.contains p.status

/-- What getOrCreatePaymentIntent returns and writes: the client secret
handed to the caller, the provider intent created (none when reusing),
and the paymentResult persisted onto the order (none when reusing). -/
structure PIOutcome where
  clientSecret : String
  created : Option PaymentIntent
  persisted : Option PaymentResult
deriving DecidableEq

/-- The inner reconciliation of getOrCreatePaymentIntent (order details
page lines 30 to 94).  provider is the provider state consulted by
retrieve: find? none models a retrieve that throws, which the source
catches and treats as stale.  The persisted paymentResult is written to
the order before the secret is returned. -/
def getOrCreatePaymentIntent (orderId : String) (orderTotalPrice : ℚ)
    (order? : Option OrderPaySlice) (provider : List PaymentIntent)
    (freshId freshSecret : String) : Except String PIOutcome :=
  match order? with
  | none => .error "Order not found"
  | some order =>
    let amount := jsRound (orderTotalPrice * 100)
    let reuse? : Option PaymentIntent :=
      match storedPiId? order.paymentResult with
      | none => none
      | some piId =>
        match provider.find? (fun p => p.id == piId) with
        | none => none
        | some p => if validForOrder p orderId amount then some p else none
    match reuse? with
    | some p => .ok ⟨p.clientSecret, none, none⟩
    | none =>
      .ok ⟨freshSecret,
           some ⟨freshId, freshSecret, amount, "usd", orderId, "requires_payment_method"⟩,
           some ⟨freshId, "pending", "", "0"⟩⟩

/-! ## Cart merge at sign-in (src/auth.ts jwt callback) -/

/-- prisma.cart.deleteMany on userId. -/
def deleteManyByUser (carts : List Cart) (uid : String) : List Cart :=
  carts.filter (fun c => c.userId != some uid)

/-- prisma.cart.update rebinding the owner of the cart with the given id;
the store raises when no row has that id. -/
def rebindCart (carts : List Cart) (id uid : String) : Except String (List Cart) :=
  if carts.any (fun c => c.id == id) then
    .ok (carts.map (fun c => if c.id = id then { c with userId := some uid } else c))
  else .error "Record not found"

/-- The merge block of the jwt callback (src/auth.ts lines 116 to 138):
look up a cart by the session cookie; when found, delete every cart of
the user, then rebind the session cart to the user. -/
def cartMerge (sessionCartId? : Option String) (uid : String)
    (carts : List Cart) : Except String (List Cart) :=
  match sessionCartId? with
  | none => .ok carts
  | some sid =>
    match carts.find? (fun c => c.sessionCartId == sid) with
    | none => .ok carts
    | some sessionCart =>
      rebindCart (deleteManyByUser carts uid) sessionCart.id uid

/-- The token slice the jwt callback produces. -/
structure TokenSlice where
  sub : Option String
deriving DecidableEq

/-- The jwt callback of src/auth.ts lines 87 to 147, restricted to the
fields the merge touches (the NO_NAME fixup is orthogonal and omitted).
There is no try catch around the merge: a failing store call leaves the
callback, and with it the sign-in transition, with an error. -/
def jwtCallback (uid? : Option String) (trigger? : Option String)
    (sessionCartId? : Option String) (carts : List Cart) :
    Except String (TokenSlice × List Cart) :=
  match uid? with
  | none => .ok (⟨none⟩, carts)
  | some uid =>
    if trigger? = some "signIn" ∨ trigger? = some "signUp" then
      match cartMerge sessionCartId? uid carts with
      | .error e => .error e
      | .ok carts2 => .ok (⟨some uid⟩, carts2)
    else .ok (⟨some uid⟩, carts)

/-! ## Webhook paid amount (src/app/api/webhooks/stripe/route.ts) -/

/-- JavaScript Number.toFixed() with zero fractional digits on a
nonnegative number: round half-up to an integer and render it. -/
def toFixed0 (x : ℚ) : String := natToString (jsRound x).toNat

/-- The paymentResult the webhook handler records on charge.succeeded
(route.ts lines 60 to 69); amount is the charge amount in minor units. -/
def chargeSucceededPaymentResult (chargeId : String) (email : String)
    (amount : ℕ) : PaymentResult :=
  ⟨chargeId, "COMPLETED", email, toFixed0 ((amount : ℚ) / 100)⟩

/-! ## Helper lemmas on decimal strings -/

lemma digitChar_isDigit {d : ℕ} (h : d < 10) : (Nat.digitChar d).isDigit = true := by
  interval_cases d <;> decide

lemma natCharsAux_digits : ∀ fuel n : ℕ, ∀ c ∈ natCharsAux fuel n, c.isDigit = true := by
  intro fuel
  induction fuel with
  | zero => intro n c hc; simp [natCharsAux] at hc
  | succ fuel ih =>
    intro n c hc
    by_cases h : n = 0
    · simp [natCharsAux, h] at hc
    · simp only [natCharsAux, if_neg h, List.mem_append, List.mem_singleton] at hc
      rcases hc with hc | hc
      · exact ih _ c hc
      · subst hc; exact digitChar_isDigit (Nat.mod_lt _ (by norm_num))

lemma natChars_digits (n : ℕ) : ∀ c ∈ natChars n, c.isDigit = true := by
  intro c hc
  by_cases h : n = 0
  · simp [natChars, h] at hc; subst hc; decide
  · simp only [natChars, if_neg h] at hc
    exact natCharsAux_digits n n c hc

lemma natCharsAux_ne_nil {fuel n : ℕ} (hf : fuel ≠ 0) (hn : n ≠ 0) :
    natCharsAux fuel n ≠ [] := by
  cases fuel with
  | zero => exact absurd rfl hf
  | succ fuel => simp [natCharsAux, if_neg hn]

lemma natChars_ne_nil (n : ℕ) : natChars n ≠ [] := by
  by_cases h : n = 0
  · simp [natChars, h]
  · simp only [natChars, if_neg h]
    exact natCharsAux_ne_nil h h

lemma moneyTail_digits_dot (ds : List Char) (hds : ∀ c ∈ ds, c.isDigit = true)
    (a b : Char) (ha : a.isDigit = true) (hb : b.isDigit = true) :
    moneyTail (ds ++ '.' :: [a, b]) = true := by
  induction ds with
  | nil => simp [moneyTail, ha, hb]
  | cons c cs ih =>
    have hc : c.isDigit = true := hds c (List.mem_cons_self _ _)
    have hcne : ¬(c = '.') := by
      intro h; subst h; simp at hc
    simp only [List.cons_append, moneyTail, if_neg hcne, hc, Bool.true_and]
    exact ih (fun x hx => hds x (List.mem_cons_of_mem _ hx))

lemma moneyTail_digits_only (l : List Char) (hl : ∀ c ∈ l, c.isDigit = true) :
    moneyTail l = false := by
  induction l with
  | nil => rfl
  | cons c cs ih =>
    have hc : c.isDigit = true := hl c (List.mem_cons_self _ _)
    have hcne : ¬(c = '.') := by
      intro h; subst h; simp at hc
    simp only [moneyTail, if_neg hcne]
    rw [ih (fun x hx => hl x (List.mem_cons_of_mem _ hx))]
    exact Bool.and_false _

lemma moneyFormat_toFixed2 (x : ℚ) : moneyFormat (toFixed2 x) = true := by
  simp only [toFixed2, moneyFormat]
  rcases hn : natChars (centsOf x / 100) with _ | ⟨c, cs⟩
  · exact absurd hn (natChars_ne_nil _)
  · have hall : ∀ d ∈ c :: cs, Char.isDigit d = true := by
      rw [← hn]; exact natChars_digits _
    have hc : c.isDigit = true := hall c (List.mem_cons_self _ _)
    simp only [List.cons_append, hc, Bool.true_and]
    exact moneyTail_digits_dot cs (fun d hd => hall d (List.mem_cons_of_mem _ hd)) _ _
      (digitChar_isDigit (show centsOf x % 100 / 10 < 10 by omega))
      (digitChar_isDigit (show centsOf x % 10 < 10 by omega))

lemma mem_of_find?_beq {p : Cart → Bool} : ∀ {l : List Cart} {c : Cart},
    l.find? p = some c → c ∈ l ∧ p c = true := by
  intro l
  induction l with
  | nil => intro c h; simp [List.find?] at h
  | cons x xs ih =>
    intro c h
    by_cases hx : p x
    · rw [List.find?_cons_of_pos _ hx] at h
      cases h
      exact ⟨List.mem_cons_self _ _, hx⟩
    · rw [List.find?_cons_of_neg _ hx] at h
      obtain ⟨hm, hp⟩ := ih h
      exact ⟨List.mem_cons_of_mem _ hm, hp⟩

lemma moneyFormat_natToString (n : ℕ) : moneyFormat (natToString n) = false := by
  simp only [natToString, moneyFormat]
  rcases hn : natChars n with _ | ⟨c, cs⟩
  · rfl
  · have hall : ∀ d ∈ c :: cs, Char.isDigit d = true := by
      rw [← hn]; exact natChars_digits _
    show (c.isDigit && moneyTail cs) = false
    rw [moneyTail_digits_only cs (fun d hd => hall d (List.mem_cons_of_mem _ hd))]
    exact Bool.and_false _

/-! ## Claim theorems -/

/-- C10: when the sessionCartId cookie is absent, getMyCart returns
absent and addItemToCart returns a success false result leaving every
cart untouched, for every authentication state and store content: the
presence of the cookie, not authentication, gates the cart operations. -/
theorem absent_cookie_gates_cart_ops (userId? : Option String)
    (products : List Product) (newCartId : String) (item : CartItem)
    (carts : List Cart) :
    getMyCart none userId? carts = none ∧
    addItemToCart none userId? products newCartId item carts =
      (⟨false, "Cart Session not found"⟩, carts) :=
  ⟨rfl, rfl⟩

/-- C6 counterexample: the claim says a failing merge step leaves the
sign-in successful, but the jwt callback has no catch around the merge.
Concretely, when the cart bound to the session cookie already belongs to
the signing-in user, deleteMany removes it and the rebinding update then
fails on a missing row, so the whole callback, and with it the sign-in
transition, ends in an error. -/
theorem merge_failure_fails_signin_cex :
    cartMerge (some "s1") "u1"
      [⟨"c1", some "u1", "s1", [], "0", "0", "0", "0"⟩] =
      .error "Record not found" ∧
    jwtCallback (some "u1") (some "signIn") (some "s1")
      [⟨"c1", some "u1", "s1", [], "0", "0", "0", "0"⟩] =
      .error "Record not found" := by
  constructor <;> rfl

/-- C6 amended: a failure in any step of the cart merge propagates out of
the jwt callback unchanged; the sign-in transition is not shielded from
merge errors. -/
theorem merge_error_propagates (uid : String)
    (trigger? sessionCartId? : Option String) (carts : List Cart) (e : String)
    (ht : trigger? = some "signIn" ∨ trigger? = some "signUp")
    (hm : cartMerge sessionCartId? uid carts = .error e) :
    jwtCallback (some uid) trigger? sessionCartId? carts = .error e := by
  simp only [jwtCallback, if_pos ht, hm]

/-- C6 amended witness at a concrete failing merge. -/
theorem merge_error_propagates_witness :
    jwtCallback (some "u1") (some "signIn") (some "s1")
      [⟨"c1", some "u1", "s1", [], "0", "0", "0", "0"⟩] =
      .error "Record not found" :=
  merge_error_propagates "u1" (some "signIn") (some "s1") _ _
    (Or.inl rfl) (by rfl)

/-- C5: at sign-in, when a cart exists for the session cookie and the
user owns a separate cart of their own, the merge deletes the user prior
carts and rebinds the session cart owner to the user id, so afterwards
the rebound session cart is present and every cart owned by the user has
the session cart id; and when no cart exists for the session cookie the
merge is a no-op. -/
theorem cartMerge_promotes_session_cart
    (sid uid : String) (carts : List Cart) (sc : Cart)
    (hfind : carts.find? (fun c => c.sessionCartId == sid) = some sc)
    (hsc : sc.userId ≠ some uid)
    (hprior : ∃ c ∈ carts, c.userId = some uid ∧ c.id ≠ sc.id) :
    (∃ carts2, cartMerge (some sid) uid carts = .ok carts2 ∧
      { sc with userId := some uid } ∈ carts2 ∧
      ∀ c ∈ carts2, c.userId = some uid → c.id = sc.id) ∧
    (∀ sid2, carts.find? (fun c => c.sessionCartId == sid2) = none →
      cartMerge (some sid2) uid carts = .ok carts) := by
  constructor
  · have hscmem : sc ∈ deleteManyByUser carts uid := by
      refine List.mem_filter.mpr ⟨(mem_of_find?_beq hfind).1, ?_⟩
      simp [hsc]
    have hany : (deleteManyByUser carts uid).any (fun c => c.id == sc.id) = true :=
      List.any_eq_true.mpr ⟨sc, hscmem, by simp⟩
    refine ⟨(deleteManyByUser carts uid).map
      (fun c => if c.id = sc.id then { c with userId := some uid } else c), ?_, ?_, ?_⟩
    · simp only [cartMerge, hfind, rebindCart, if_pos hany]
    · exact List.mem_map.mpr ⟨sc, hscmem, by simp⟩
    · intro c hc hcu
      obtain ⟨x, hx, hfx⟩ := List.mem_map.mp hc
      by_cases hxi : x.id = sc.id
      · rw [if_pos hxi] at hfx
        rw [← hfx]
        exact hxi
      · rw [if_neg hxi] at hfx
        subst hfx
        have := (List.mem_filter.mp hx).2
        simp [hcu] at this
  · intro sid2 h
    simp only [cartMerge, h]

/-! Transaction bookkeeping lemmas for the order pipeline. -/

lemma applyWrites_cons (db : DB) (w : TxWrite) (ws : List TxWrite) :
    applyWrites db (w :: ws) = applyWrites (applyWrite db w) ws := rfl

lemma applyWrites_items_clear (oid cid : String) :
    ∀ (items : List CartItem) (db : DB),
    applyWrites db
      (items.map (fun it => TxWrite.orderItemCreate (snapshotItem oid it))
        ++ [TxWrite.cartClear cid]) =
      { carts := updateCartWrite db.carts cid [] zeroTotals,
        orders := db.orders,
        orderItems := db.orderItems ++ items.map (snapshotItem oid) } := by
  intro items
  induction items with
  | nil =>
    intro db
    simp [applyWrites, applyWrite]
  | cons it items ih =>
    intro db
    simp only [List.map_cons, List.cons_append, applyWrites_cons, ih, applyWrite]
    simp [List.append_assoc]

lemma applyWrites_orderTx (db : DB) (cart : Cart) (order : OrderRow) :
    applyWrites db (orderTxWrites cart order) =
      { carts := updateCartWrite db.carts cart.id [] zeroTotals,
        orders := db.orders ++ [order],
        orderItems := db.orderItems ++ cart.items.map (snapshotItem order.id) } := by
  show applyWrites (applyWrite db (TxWrite.orderCreate order))
      (cart.items.map (fun it => TxWrite.orderItemCreate (snapshotItem order.id it))
        ++ [TxWrite.cartClear cart.id]) = _
  rw [applyWrites_items_clear]
  simp [applyWrite]

lemma runTx_some {db : DB} {ws : List TxWrite} {failAt? : Option ℕ} {db2 : DB}
    (h : runTx db ws failAt? = some db2) : db2 = applyWrites db ws := by
  rcases failAt? with _ | k
  · simp only [runTx] at h
    exact (Option.some.inj h).symm
  · simp only [runTx] at h
    by_cases hk : k < ws.length
    · rw [if_pos hk] at h
      simp at h
    · rw [if_neg hk] at h
      exact (Option.some.inj h).symm

lemma find?_append_of_none {α} {p : α → Bool} {l1 : List α} (l2 : List α)
    (h1 : l1.find? p = none) : (l1 ++ l2).find? p = l2.find? p := by
  rw [List.find?_append, h1, Option.none_or]

lemma findCartById_updateCartWrite (cid : String) (items : List CartItem)
    (t : Totals) : ∀ {carts : List Cart} {c : Cart},
    findCartById carts cid = some c →
    findCartById (updateCartWrite carts cid items t) cid =
      some (withItemsTotals c items t) := by
  intro carts
  induction carts with
  | nil => intro c h; simp [findCartById, List.find?] at h
  | cons x xs ih =>
    intro c h
    by_cases hx : x.id = cid
    · rw [findCartById, List.find?_cons_of_pos _ (by simp [hx])] at h
      cases h
      simp only [updateCartWrite, List.map_cons, if_pos hx]
      rw [findCartById, List.find?_cons_of_pos]
      simp [withItemsTotals, hx]
    · rw [findCartById, List.find?_cons_of_neg _ (by simp [hx])] at h
      have := ih h
      simp only [updateCartWrite, List.map_cons, if_neg hx]
      rw [findCartById, List.find?_cons_of_neg _ (by simp [hx])]
      exact this

/-- C8: createOrder checks its preconditions in order, each yielding a
structured redirect result, not an exception, and short-circuiting the
later checks; it creates the order only when all three hold, and whenever
it reports success an order row exists. -/
theorem createOrder_precondition_order
    (sid? : Option String) (uid : String) (users : List User) (user : User)
    (noid : String) (failAt? : Option ℕ) (db : DB)
    (hu : getUserById users uid = some user) :
    (getMyCart sid? (some uid) db.carts = none →
      createOrder sid? (some uid) users noid failAt? db =
        (⟨false, "Your cart is empty", some "/cart"⟩, db)) ∧
    (∀ cart, getMyCart sid? (some uid) db.carts = some cart →
      cart.items = [] →
      createOrder sid? (some uid) users noid failAt? db =
        (⟨false, "Your cart is empty", some "/cart"⟩, db)) ∧
    (∀ cart, getMyCart sid? (some uid) db.carts = some cart →
      cart.items ≠ [] → user.address = none →
      createOrder sid? (some uid) users noid failAt? db =
        (⟨false, "No Shipping Address Found", some "/shipping-address"⟩, db)) ∧
    (∀ cart a, getMyCart sid? (some uid) db.carts = some cart →
      cart.items ≠ [] → user.address = some a → user.paymentMethod = none →
      createOrder sid? (some uid) users noid failAt? db =
        (⟨false, "No Payment method selected", some "/payment-method"⟩, db)) ∧
    ((createOrder sid? (some uid) users noid failAt? db).1.success = true →
      (∃ cart, getMyCart sid? (some uid) db.carts = some cart ∧ cart.items ≠ []) ∧
      user.address ≠ none ∧ user.paymentMethod ≠ none ∧
      findOrder (createOrder sid? (some uid) users noid failAt? db).2 noid ≠ none) := by
  refine ⟨?_, ?_, ?_, ?_, ?_⟩
  · intro hc
    simp [createOrder, hu, hc]
  · intro cart hc hi
    simp [createOrder, hu, hc, hi]
  · intro cart hc hi haddr
    simp [createOrder, hu, hc, List.isEmpty_iff, hi, haddr]
  · intro cart a hc hi haddr hpm
    simp [createOrder, hu, hc, List.isEmpty_iff, hi, haddr, hpm]
  · intro hs
    rcases hc : getMyCart sid? (some uid) db.carts with _ | cart
    · simp [createOrder, hu, hc] at hs
    rcases hi : cart.items with _ | ⟨it, its⟩
    · simp [createOrder, hu, hc, hi] at hs
    rcases haddr : user.address with _ | a
    · simp [createOrder, hu, hc, hi, haddr] at hs
    rcases hpm : user.paymentMethod with _ | pm
    · simp [createOrder, hu, hc, hi, haddr, hpm] at hs
    rcases hr : runTx db
        (orderTxWrites cart (mkOrderRow noid user a pm cart)) failAt? with _ | db2
    · simp [createOrder, hu, hc, hi, haddr, hpm, hr] at hs
    refine ⟨⟨cart, rfl, by simp [hi]⟩, by simp, by simp, ?_⟩
    have hco : createOrder sid? (some uid) users noid failAt? db =
        (⟨true, "Order created", some ("/order/" ++ noid)⟩, db2) := by
      simp [createOrder, hu, hc, hi, haddr, hpm, hr]
    rw [hco]
    have hdb2 := runTx_some hr
    rw [hdb2, applyWrites_orderTx]
    simp only [findOrder]
    rcases hfo : (db.orders.find? (fun o => o.id == noid)) with _ | o
    · rw [find?_append_of_none _ hfo]
      simp [mkOrderRow]
    · rw [List.find?_append, hfo]
      simp

/-- C8 witness: an authenticated user with address and payment method on
file but no cart is redirected to the cart page. -/
theorem createOrder_precondition_order_witness :
    createOrder none (some "u") [⟨"u", some "addr", some "Stripe"⟩] "o1" none
      ⟨[], [], []⟩ =
      (⟨false, "Your cart is empty", some "/cart"⟩, (⟨[], [], []⟩ : DB)) :=
  (createOrder_precondition_order none "u" [⟨"u", some "addr", some "Stripe"⟩]
    ⟨"u", some "addr", some "Stripe"⟩ "o1" none ⟨[], [], []⟩ rfl).1 rfl

/-- C2: with all checkout preconditions satisfied, the three write groups
of createOrder run inside one atomic transaction: a failure injected at
any write index leaves the caller with the unchanged store, which by the
freshness hypotheses contains no order row for the new id, no order item
rows for it, and the untouched cart; without failure all three effects
are visible together: the order row, one snapshot row per cart line, and
the cart emptied with all four totals zeroed. -/
theorem createOrder_transaction_atomic
    (sid? : Option String) (uid : String) (users : List User) (user : User)
    (noid : String) (db : DB) (cart : Cart) (a pm : String)
    (hu : getUserById users uid = some user)
    (hc : getMyCart sid? (some uid) db.carts = some cart)
    (hne : cart.items ≠ [])
    (ha : user.address = some a)
    (hpm : user.paymentMethod = some pm)
    (hfo : findOrder db noid = none)
    (hfi : itemsOfOrder db noid = [])
    (hfc : findCartById db.carts cart.id = some cart) :
    (∀ k, k < (orderTxWrites cart (mkOrderRow noid user a pm cart)).length →
      createOrder sid? (some uid) users noid (some k) db =
        (⟨false, "Transaction failed", none⟩, db)) ∧
    (∃ db2, createOrder sid? (some uid) users noid none db =
        (⟨true, "Order created", some ("/order/" ++ noid)⟩, db2) ∧
      findOrder db2 noid = some (mkOrderRow noid user a pm cart) ∧
      itemsOfOrder db2 noid = cart.items.map (snapshotItem noid) ∧
      findCartById db2.carts cart.id = some (withItemsTotals cart [] zeroTotals)) := by
  have hmk : (mkOrderRow noid user a pm cart).id = noid := rfl
  constructor
  · intro k hk
    have hr : runTx db (orderTxWrites cart (mkOrderRow noid user a pm cart))
        (some k) = none := by
      simp only [runTx, if_pos hk]
    simp [createOrder, hu, hc, List.isEmpty_iff, hne, ha, hpm, hr]
  · have hr : runTx db (orderTxWrites cart (mkOrderRow noid user a pm cart))
        none = some (applyWrites db (orderTxWrites cart (mkOrderRow noid user a pm cart))) := rfl
    refine ⟨applyWrites db (orderTxWrites cart (mkOrderRow noid user a pm cart)),
      ?_, ?_, ?_, ?_⟩
    · simp [createOrder, hu, hc, List.isEmpty_iff, hne, ha, hpm, hr]
    · rw [applyWrites_orderTx]
      simp only [findOrder] at hfo ⊢
      rw [find?_append_of_none _ hfo]
      simp [mkOrderRow]
    · rw [applyWrites_orderTx]
      simp only [itemsOfOrder] at hfi ⊢
      rw [List.filter_append, hfi]
      simp only [List.nil_append, hmk]
      refine List.filter_eq_self.mpr ?_
      intro row hrow
      obtain ⟨it, hit, hsnap⟩ := List.mem_map.mp hrow
      rw [← hsnap]
      simp [snapshotItem]
    · rw [applyWrites_orderTx]
      exact findCartById_updateCartWrite cart.id [] zeroTotals hfc

/-- C2 witness: a one-line cart, injected failure at every one of the
three writes, and the successful run. -/
theorem createOrder_transaction_atomic_witness :
    (∀ k, k < 3 →
      createOrder (some "s") (some "u") [⟨"u", some "addr", some "Stripe"⟩] "o1"
        (some k)
        ⟨[⟨"c1", some "u", "s", [⟨"p1", "N", "sl", 1, "img", 25⟩],
           "25.00", "10.00", "5.25", "40.25"⟩], [], []⟩ =
      (⟨false, "Transaction failed", none⟩,
       ⟨[⟨"c1", some "u", "s", [⟨"p1", "N", "sl", 1, "img", 25⟩],
          "25.00", "10.00", "5.25", "40.25"⟩], [], []⟩)) ∧
    (∃ db2, createOrder (some "s") (some "u") [⟨"u", some "addr", some "Stripe"⟩]
        "o1" none
        ⟨[⟨"c1", some "u", "s", [⟨"p1", "N", "sl", 1, "img", 25⟩],
           "25.00", "10.00", "5.25", "40.25"⟩], [], []⟩ =
        (⟨true, "Order created", some ("/order/" ++ "o1")⟩, db2) ∧
      findOrder db2 "o1" =
        some (mkOrderRow "o1" ⟨"u", some "addr", some "Stripe"⟩ "addr" "Stripe"
          ⟨"c1", some "u", "s", [⟨"p1", "N", "sl", 1, "img", 25⟩],
           "25.00", "10.00", "5.25", "40.25"⟩) ∧
      itemsOfOrder db2 "o1" =
        [⟨"p1", "N", "sl", 1, "img", 25⟩].map (snapshotItem "o1") ∧
      findCartById db2.carts "c1" =
        some (withItemsTotals
          ⟨"c1", some "u", "s", [⟨"p1", "N", "sl", 1, "img", 25⟩],
           "25.00", "10.00", "5.25", "40.25"⟩ [] zeroTotals)) :=
  createOrder_transaction_atomic (some "s") "u" _
    ⟨"u", some "addr", some "Stripe"⟩ "o1" _
    ⟨"c1", some "u", "s", [⟨"p1", "N", "sl", 1, "img", 25⟩],
     "25.00", "10.00", "5.25", "40.25"⟩ "addr" "Stripe"
    rfl rfl (by simp) rfl rfl rfl rfl rfl

/-- C3: for an order that already references a provider intent id, the
stored intent is reused, returning its client secret with nothing created
and nothing persisted, exactly when the retrieval succeeds and the
retrieved intent matches the expected amount in minor units, the usd
currency, the orderId metadata, and has a non-terminal awaiting status;
in every other case a fresh intent tagged with the orderId is created for
round(total times 100) minor units and a pending paymentResult with zero
amount paid is persisted onto the order before the fresh secret is
returned. -/
theorem paymentIntent_reuse_or_create
    (orderId : String) (total : ℚ) (o : OrderPaySlice) (piId : String)
    (provider : List PaymentIntent) (freshId freshSecret : String)
    (hpi : storedPiId? o.paymentResult = some piId) :
    (provider.find? (fun p => p.id == piId) = none →
      getOrCreatePaymentIntent orderId total (some o) provider freshId freshSecret =
        .ok ⟨freshSecret,
             some ⟨freshId, freshSecret, jsRound (total * 100), "usd", orderId,
                   "requires_payment_method"⟩,
             some ⟨freshId, "pending", "", "0"⟩⟩) ∧
    (∀ p, provider.find? (fun q => q.id == piId) = some p →
      validForOrder p orderId (jsRound (total * 100)) = true →
      getOrCreatePaymentIntent orderId total (some o) provider freshId freshSecret =
        .ok ⟨p.clientSecret, none, none⟩) ∧
    (∀ p, provider.find? (fun q => q.id == piId) = some p →
      validForOrder p orderId (jsRound (total * 100)) = false →
      getOrCreatePaymentIntent orderId total (some o) provider freshId freshSecret =
        .ok ⟨freshSecret,
             some ⟨freshId, freshSecret, jsRound (total * 100), "usd", orderId,
                   "requires_payment_method"⟩,
             some ⟨freshId, "pending", "", "0"⟩⟩) := by
  refine ⟨?_, ?_, ?_⟩
  · intro hf
    simp [getOrCreatePaymentIntent, hpi, hf]
  · intro p hf hv
    simp [getOrCreatePaymentIntent, hpi, hf, hv]
  · intro p hf hv
    simp [getOrCreatePaymentIntent, hpi, hf, hv]

/-- C3 witness: a stored intent that the provider still holds with the
matching amount of 1000 minor units for a 10.00 total is reused. -/
theorem paymentIntent_reuse_or_create_witness :
    getOrCreatePaymentIntent "o1" 10
      (some ⟨some ⟨"pi_1", "pending", "", "0"⟩⟩)
      [⟨"pi_1", "sec1", 1000, "usd", "o1", "requires_payment_method"⟩]
      "pi_new" "secNew" = .ok ⟨"sec1", none, none⟩ := by
  have hr : jsRound ((10 : ℚ) * 100) = 1000 := by
    rw [jsRound]
    norm_num
  refine (paymentIntent_reuse_or_create "o1" 10
    ⟨some ⟨"pi_1", "pending", "", "0"⟩⟩ "pi_1" _ "pi_new" "secNew" rfl).2.1
    ⟨"pi_1", "sec1", 1000, "usd", "o1", "requires_payment_method"⟩ rfl ?_
  rw [validForOrder, hr]
  decide

/-- Any cart present after an updateCartWrite either was already in the
store or carries exactly the written items and totals. -/
lemma mem_updateCartWrite {carts : List Cart} {id : String}
    {items : List CartItem} {t : Totals} :
    ∀ c2 ∈ updateCartWrite carts id items t,
    c2 ∈ carts ∨ (storedTotals c2 = t ∧ c2.items = items) := by
  intro c2 hc2
  obtain ⟨x, hx, hfx⟩ := List.mem_map.mp hc2
  by_cases hxi : x.id = id
  · right
    rw [← hfx, if_pos hxi]
    exact ⟨rfl, rfl⟩
  · left
    rw [← hfx, if_neg hxi]
    exact hx

/-- C1: every successful cart mutation leaves the store such that every
cart it wrote stores exactly the four totals recomputed by calcPrice from
its stored item list; and the worked example of the spec holds: one line
of price 25.00 and qty 3 yields 75.00, 10.00, 15.75 and 100.75. -/
theorem totals_pure_recomputation :
    (∀ sid? uid? products ncid item carts r carts2,
      addItemToCart sid? uid? products ncid item carts = (r, carts2) →
      r.success = true →
      ∀ c2 ∈ carts2, c2 ∈ carts ∨ storedTotals c2 = calcPrice c2.items) ∧
    (∀ sid? uid? products pid carts r carts2,
      removeItemfromCart sid? uid? products pid carts = (r, carts2) →
      r.success = true →
      ∀ c2 ∈ carts2, c2 ∈ carts ∨ storedTotals c2 = calcPrice c2.items) ∧
    calcPrice [⟨"p1", "n", "sl", 3, "img", 25⟩] =
      ⟨"75.00", "10.00", "15.75", "100.75"⟩ := by
  refine ⟨?_, ?_, ?_⟩
  · intro sid? uid? products ncid item carts r carts2 h hs c2 hc2
    unfold addItemToCart at h
    split at h
    · cases h; simp at hs
    · split at h
      · cases h; simp at hs
      · split at h
        · cases h
          rcases List.mem_append.mp hc2 with hm | hm
          · exact Or.inl hm
          · rw [List.mem_singleton.mp hm]
            exact Or.inr rfl
        · split at h
          · split at h
            · cases h; simp at hs
            · cases h
              rcases mem_updateCartWrite c2 hc2 with hm | ⟨ht, hi⟩
              · exact Or.inl hm
              · rw [← hi] at ht
                exact Or.inr ht
          · split at h
            · cases h; simp at hs
            · cases h
              rcases mem_updateCartWrite c2 hc2 with hm | ⟨ht, hi⟩
              · exact Or.inl hm
              · rw [← hi] at ht
                exact Or.inr ht
  · intro sid? uid? products pid carts r carts2 h hs c2 hc2
    unfold removeItemfromCart at h
    split at h
    · cases h; simp at hs
    · split at h
      · cases h; simp at hs
      · split at h
        · cases h; simp at hs
        · split at h
          · cases h; simp at hs
          · cases h
            rcases mem_updateCartWrite c2 hc2 with hm | ⟨ht, hi⟩
            · exact Or.inl hm
            · rw [← hi] at ht
              exact Or.inr ht
  · have hA : round2 (([⟨"p1", "n", "sl", 3, "img", 25⟩] : List CartItem).foldl
        (fun acc it => acc + it.price * (it.qty : ℚ)) 0) = 75 := by
      show round2 ((0 : ℚ) + 25 * ((3 : ℕ) : ℚ)) = 75
      rw [round2]
      push_cast
      norm_num
    have hB : round2 ((10 : ℚ)) = 10 := by rw [round2]; norm_num
    have hC : round2 (21 / 100 * (75 : ℚ)) = 63 / 4 := by rw [round2]; norm_num
    have hD : round2 ((75 : ℚ) + 10 + 63 / 4) = 403 / 4 := by rw [round2]; norm_num
    have c1 : centsOf (75 : ℚ) = 7500 := by
      rw [centsOf]
      norm_num
      rfl
    have c2 : centsOf (10 : ℚ) = 1000 := by
      rw [centsOf]
      norm_num
      rfl
    have c3 : centsOf (63 / 4 : ℚ) = 1575 := by
      rw [centsOf]
      norm_num
      rfl
    have c4 : centsOf (403 / 4 : ℚ) = 10075 := by
      rw [centsOf]
      norm_num
      rfl
    have f1 : toFixed2 (75 : ℚ) = "75.00" := by
      simp only [toFixed2, c1]
      decide
    have f2 : toFixed2 (10 : ℚ) = "10.00" := by
      simp only [toFixed2, c2]
      decide
    have f3 : toFixed2 (63 / 4 : ℚ) = "15.75" := by
      simp only [toFixed2, c3]
      decide
    have f4 : toFixed2 (403 / 4 : ℚ) = "100.75" := by
      simp only [toFixed2, c4]
      decide
    simp only [calcPrice, hA]
    rw [if_neg (by norm_num : ¬((75 : ℚ) > 100))]
    rw [hB, hC, hD, f1, f2, f3, f4]

lemma find?_split {α} {p : α → Bool} : ∀ {l : List α} {x : α},
    l.find? p = some x →
    p x = true ∧ ∃ l1 l2, l = l1 ++ x :: l2 ∧ ∀ y ∈ l1, p y = false := by
  intro l
  induction l with
  | nil => intro x h; simp [List.find?] at h
  | cons a as ih =>
    intro x h
    by_cases ha : p a
    · rw [List.find?_cons_of_pos _ ha] at h
      cases h
      exact ⟨ha, [], as, rfl, by simp⟩
    · rw [List.find?_cons_of_neg _ ha] at h
      obtain ⟨hp, l1, l2, hsplit, hl1⟩ := ih h
      refine ⟨hp, a :: l1, l2, by rw [hsplit, List.cons_append], ?_⟩
      intro y hy
      rcases List.mem_cons.mp hy with hy | hy
      · subst hy
        simp only [Bool.not_eq_true] at ha
        exact ha
      · exact hl1 y hy

lemma setQtyFirst_append {pid : String} {ex : CartItem} (post : List CartItem)
    (q : ℕ) (hex : ex.productId = pid) :
    ∀ pre : List CartItem, (∀ y ∈ pre, (y.productId == pid) = false) →
    setQtyFirst (pre ++ ex :: post) pid q = pre ++ { ex with qty := q } :: post := by
  intro pre
  induction pre with
  | nil =>
    intro _
    simp [setQtyFirst, hex]
  | cons a l ih =>
    intro hpre
    have ha : ¬(a.productId = pid) := by
      have := hpre a (List.mem_cons_self _ _)
      simp only [beq_eq_false_iff_ne, ne_eq] at this
      exact this
    simp only [List.cons_append, setQtyFirst, if_neg ha, List.append_eq]
    rw [ih (fun y hy => hpre y (List.mem_cons_of_mem _ hy))]

/-- C7: on an existing cart, when the product is already a line item its
qty is bumped by exactly one (all other lines untouched) unless qty plus
one would exceed the current stock, which fails with no store change; when
the product is absent it is appended with its given qty unless the stock
is zero, which fails with no store change. -/
theorem addItemToCart_existing_cart_behavior
    (sid : String) (uid? : Option String) (products : List Product)
    (ncid : String) (item : CartItem) (carts : List Cart)
    (cart : Cart) (product : Product)
    (hc : getMyCart (some sid) uid? carts = some cart)
    (hp : products.find? (fun p => p.id == item.productId) = some product) :
    (∀ ex, cart.items.find? (fun x => x.productId == item.productId) = some ex →
      product.stock < ex.qty + 1 →
      addItemToCart (some sid) uid? products ncid item carts =
        (⟨false, "Not enough stock"⟩, carts)) ∧
    (∀ ex, cart.items.find? (fun x => x.productId == item.productId) = some ex →
      ¬product.stock < ex.qty + 1 →
      ∃ pre post, cart.items = pre ++ ex :: post ∧
        (∀ y ∈ pre, (y.productId == item.productId) = false) ∧
        addItemToCart (some sid) uid? products ncid item carts =
          (⟨true, product.name ++ " updated in cart"⟩,
           updateCartWrite carts cart.id (pre ++ { ex with qty := ex.qty + 1 } :: post)
             (calcPrice (pre ++ { ex with qty := ex.qty + 1 } :: post)))) ∧
    (cart.items.find? (fun x => x.productId == item.productId) = none →
      product.stock = 0 →
      addItemToCart (some sid) uid? products ncid item carts =
        (⟨false, "Not enough stock"⟩, carts)) ∧
    (cart.items.find? (fun x => x.productId == item.productId) = none →
      0 < product.stock →
      addItemToCart (some sid) uid? products ncid item carts =
        (⟨true, product.name ++ " added to cart"⟩,
         updateCartWrite carts cart.id (cart.items ++ [item])
           (calcPrice (cart.items ++ [item])))) := by
  refine ⟨?_, ?_, ?_, ?_⟩
  · intro ex hf hstock
    simp [addItemToCart, hp, hc, hf, if_pos hstock]
  · intro ex hf hstock
    obtain ⟨hpx, pre, post, hsplit, hpre⟩ := find?_split hf
    have hexid : ex.productId = item.productId := by
      simpa [beq_iff_eq] using hpx
    have hsq : setQtyFirst cart.items item.productId (ex.qty + 1) =
        pre ++ { ex with qty := ex.qty + 1 } :: post := by
      rw [hsplit]
      exact setQtyFirst_append post _ hexid pre hpre
    refine ⟨pre, post, hsplit, hpre, ?_⟩
    simp [addItemToCart, hp, hc, hf, if_neg hstock, hsq]
  · intro hf hstock
    simp [addItemToCart, hp, hc, hf, hstock]
  · intro hf hstock
    simp [addItemToCart, hp, hc, hf]
    omega

/-- C7 witness: adding a product absent from the existing cart with
positive stock appends it with its given quantity. -/
theorem addItemToCart_existing_cart_behavior_witness :
    addItemToCart (some "s") none [⟨"p2", "sl2", "N2", 3⟩] "cNew"
      ⟨"p2", "n2", "sl2", 2, "img2", 10⟩
      [⟨"c1", none, "s", [⟨"p1", "n", "sl", 1, "img", 25⟩],
        "25.00", "10.00", "5.25", "40.25"⟩] =
      (⟨true, "N2" ++ " added to cart"⟩,
       updateCartWrite
         [⟨"c1", none, "s", [⟨"p1", "n", "sl", 1, "img", 25⟩],
           "25.00", "10.00", "5.25", "40.25"⟩] "c1"
         ([⟨"p1", "n", "sl", 1, "img", 25⟩] ++ [⟨"p2", "n2", "sl2", 2, "img2", 10⟩])
         (calcPrice
           ([⟨"p1", "n", "sl", 1, "img", 25⟩] ++ [⟨"p2", "n2", "sl2", 2, "img2", 10⟩]))) :=
  (addItemToCart_existing_cart_behavior "s" none [⟨"p2", "sl2", "N2", 3⟩] "cNew"
    ⟨"p2", "n2", "sl2", 2, "img2", 10⟩
    [⟨"c1", none, "s", [⟨"p1", "n", "sl", 1, "img", 25⟩],
      "25.00", "10.00", "5.25", "40.25"⟩]
    ⟨"c1", none, "s", [⟨"p1", "n", "sl", 1, "img", 25⟩],
     "25.00", "10.00", "5.25", "40.25"⟩
    ⟨"p2", "sl2", "N2", 3⟩ rfl rfl).2.2.2 rfl (by norm_num)

/-- C9 counterexample: the webhook handler renders the paid amount with
Number.toFixed() and zero fractional digits, so a charge of 10075 minor
units is recorded as the string 101, which does not match the required
digits dot two digits shape (and also loses the cents). -/
theorem webhook_pricePaid_cex :
    (chargeSucceededPaymentResult "ch_1" "b@e.co" 10075).pricePaid = "101" ∧
    moneyFormat "101" = false := by
  constructor
  · have hr : jsRound (((10075 : ℕ) : ℚ) / 100) = 101 := by
      rw [jsRound]
      push_cast
      norm_num
    simp only [chargeSucceededPaymentResult, toFixed0, hr]
    decide
  · decide

/-- C9 amended: the four totals produced by calcPrice on any item list
with nonnegative prices match the digits dot two digits shape, and so do
the totals getMyCart returns for carts whose stored totals were written by
a mutation; but the pricePaid the webhook handler records never matches
that shape, being a whole-unit rendering with no fractional digits. -/
theorem money_string_format :
    (∀ items : List CartItem, (∀ it ∈ items, 0 ≤ it.price) →
      moneyFormat (calcPrice items).itemsPrice = true ∧
      moneyFormat (calcPrice items).shippingPrice = true ∧
      moneyFormat (calcPrice items).taxPrice = true ∧
      moneyFormat (calcPrice items).totalPrice = true) ∧
    (∀ sid? uid? carts c, getMyCart sid? uid? carts = some c →
      storedTotals c = calcPrice c.items →
      moneyFormat c.itemsPrice = true ∧ moneyFormat c.shippingPrice = true ∧
      moneyFormat c.taxPrice = true ∧ moneyFormat c.totalPrice = true) ∧
    (∀ chargeId email amount,
      moneyFormat (chargeSucceededPaymentResult chargeId email amount).pricePaid = false) := by
  refine ⟨?_, ?_, ?_⟩
  · intro items _
    refine ⟨?_, ?_, ?_, ?_⟩ <;>
      · simp only [calcPrice]
        exact moneyFormat_toFixed2 _
  · intro sid? uid? carts c _ ht
    have h1 : c.itemsPrice = (calcPrice c.items).itemsPrice := congrArg Totals.itemsPrice ht
    have h2 : c.shippingPrice = (calcPrice c.items).shippingPrice :=
      congrArg Totals.shippingPrice ht
    have h3 : c.taxPrice = (calcPrice c.items).taxPrice := congrArg Totals.taxPrice ht
    have h4 : c.totalPrice = (calcPrice c.items).totalPrice := congrArg Totals.totalPrice ht
    rw [h1, h2, h3, h4]
    refine ⟨?_, ?_, ?_, ?_⟩ <;>
      · simp only [calcPrice]
        exact moneyFormat_toFixed2 _
  · intro chargeId email amount
    simp only [chargeSucceededPaymentResult, toFixed0]
    exact moneyFormat_natToString _

/-- C9 amended witness at the worked example item list and at the concrete
webhook charge amount. -/
theorem money_string_format_witness :
    (moneyFormat (calcPrice [⟨"p1", "n", "sl", 3, "img", 25⟩]).itemsPrice = true ∧
     moneyFormat (calcPrice [⟨"p1", "n", "sl", 3, "img", 25⟩]).shippingPrice = true ∧
     moneyFormat (calcPrice [⟨"p1", "n", "sl", 3, "img", 25⟩]).taxPrice = true ∧
     moneyFormat (calcPrice [⟨"p1", "n", "sl", 3, "img", 25⟩]).totalPrice = true) ∧
    moneyFormat (chargeSucceededPaymentResult "ch_1" "b@e.co" 10075).pricePaid = false :=
  ⟨money_string_format.1 [⟨"p1", "n", "sl", 3, "img", 25⟩]
    (by intro it hit; rw [List.mem_singleton.mp hit]; norm_num),
   money_string_format.2.2 "ch_1" "b@e.co" 10075⟩

/-- C1 witness: the cart created by a successful addItemToCart on an
empty store satisfies the totals invariant. -/
theorem totals_pure_recomputation_witness :
    (⟨"c1", none, "s", [⟨"p1", "n", "sl", 1, "img", 25⟩],
       (calcPrice [⟨"p1", "n", "sl", 1, "img", 25⟩]).itemsPrice,
       (calcPrice [⟨"p1", "n", "sl", 1, "img", 25⟩]).shippingPrice,
       (calcPrice [⟨"p1", "n", "sl", 1, "img", 25⟩]).taxPrice,
       (calcPrice [⟨"p1", "n", "sl", 1, "img", 25⟩]).totalPrice⟩ : Cart) ∈ ([] : List Cart) ∨
    storedTotals
      ⟨"c1", none, "s", [⟨"p1", "n", "sl", 1, "img", 25⟩],
       (calcPrice [⟨"p1", "n", "sl", 1, "img", 25⟩]).itemsPrice,
       (calcPrice [⟨"p1", "n", "sl", 1, "img", 25⟩]).shippingPrice,
       (calcPrice [⟨"p1", "n", "sl", 1, "img", 25⟩]).taxPrice,
       (calcPrice [⟨"p1", "n", "sl", 1, "img", 25⟩]).totalPrice⟩ =
      calcPrice
        (⟨"c1", none, "s", [⟨"p1", "n", "sl", 1, "img", 25⟩],
          (calcPrice [⟨"p1", "n", "sl", 1, "img", 25⟩]).itemsPrice,
          (calcPrice [⟨"p1", "n", "sl", 1, "img", 25⟩]).shippingPrice,
          (calcPrice [⟨"p1", "n", "sl", 1, "img", 25⟩]).taxPrice,
          (calcPrice [⟨"p1", "n", "sl", 1, "img", 25⟩]).totalPrice⟩ : Cart).items :=
  totals_pure_recomputation.1 (some "s") none [⟨"p1", "sl", "n", 5⟩] "c1"
    ⟨"p1", "n", "sl", 1, "img", 25⟩ [] _ _ rfl rfl _ (List.Mem.head _)

/-- C5 witness: a user cart and a separate anonymous session cart. -/
theorem cartMerge_promotes_session_cart_witness :
    (∃ carts2, cartMerge (some "s") "u"
        [⟨"cu", some "u", "sOld", [], "0", "0", "0", "0"⟩,
         ⟨"cs", none, "s", [], "0", "0", "0", "0"⟩] = .ok carts2 ∧
      ({ id := "cs", userId := some "u", sessionCartId := "s", items := [],
         itemsPrice := "0", shippingPrice := "0", taxPrice := "0",
         totalPrice := "0" } : Cart) ∈ carts2 ∧
      ∀ c ∈ carts2, c.userId = some "u" → c.id = "cs") ∧
    (∀ sid2,
      ([⟨"cu", some "u", "sOld", [], "0", "0", "0", "0"⟩,
        ⟨"cs", none, "s", [], "0", "0", "0", "0"⟩] : List Cart).find?
          (fun c => c.sessionCartId == sid2) = none →
      cartMerge (some sid2) "u"
        [⟨"cu", some "u", "sOld", [], "0", "0", "0", "0"⟩,
         ⟨"cs", none, "s", [], "0", "0", "0", "0"⟩] =
        .ok [⟨"cu", some "u", "sOld", [], "0", "0", "0", "0"⟩,
             ⟨"cs", none, "s", [], "0", "0", "0", "0"⟩]) :=
  cartMerge_promotes_session_cart "s" "u" _
    ⟨"cs", none, "s", [], "0", "0", "0", "0"⟩ (by rfl) (by simp)
    ⟨⟨"cu", some "u", "sOld", [], "0", "0", "0", "0"⟩, by simp, by simp, by simp⟩

end Store
